import Mathlib

/-!
Shallow embedding of `src/Analysis.py` (class `Analysis`).

Modelling choices:
- A YAML scalar is a `Value`; a YAML `null` is `Value.vnull`.
- A parsed configuration document is an association list `Config`;
  Python `dict` lookup is `clookup` (first binding wins), and
  `dict.update(overlay)` is `dictUpdate`, whose lookup semantics is
  "overlay wins, otherwise base".
- Exceptions become the inductive `Err`.  The source raises bare
  `Exception`s; each constructor names one raise site, following the
  taxonomy used in the documentation.  `keyError` is the Python
  `KeyError` raised by `self.config[k]` when `k` is absent.
- The external world (filesystem presence, parse success, the HTTP
  round trips) is passed in as explicit parameters, and each method
  returns the post-call object state next to its result, so that
  state changes are visible.
-/

inductive Value where
  | vnull
  | vstr (s : String)
  | vint (n : Int)
deriving DecidableEq, Repr

abbrev Config := List (String × Value)

/-- Python `dict` lookup: the binding closest to the head wins. -/
def clookup : Config → String → Option Value
  | [], _ => none
  | (k', v) :: rest, k => if k' = k then some v else clookup rest k

/-- `base.update(overlay)`: on lookup, the overlay's bindings shadow the base's. -/
def dictUpdate (base overlay : Config) : Config := overlay ++ base

/-- `self.config[k]` once a guard has already established that `k` is bound. -/
def cget (c : Config) (k : String) : Value := (clookup c k).getD .vnull

inductive LoadFailure where
  | network
  | parse
deriving DecidableEq, Repr

inductive Err where
  | configurationNotFoundError (path : String)
  | configurationParseError
  | keyError (key : String)
  | missingConfigurationError
  | dataNotLoadedError
  | dataLoadError (cause : LoadFailure)
deriving DecidableEq, Repr

/-- One repository record; the three columns the job consumes. -/
structure Row where
  forks_count : ℚ
  open_issues_count : ℚ
  watchers_count : ℚ
deriving DecidableEq, Repr

abbrev Dataset := List Row

/-- The `Analysis` object's fields: `self.config`, and `self.dataset`
(`none` models the attribute not existing, i.e. `hasattr` is false). -/
structure AnalysisState where
  config : Config
  dataset : Option Dataset
deriving DecidableEq, Repr

/-- One configuration file as the constructor sees it: whether
`os.path.isfile` holds, and what `yaml.safe_load` + `dict.update`
would make of its contents (`.error ()` covers both a YAML parse
failure and a non-mapping document, which makes `config.update`
raise — both land in the same `except` block). -/
structure SourceFile where
  present : Bool
  parsed : Except Unit Config

/-- One iteration of the constructor's merge loop.  On a parse
failure the source logs the error and continues with `config`
unchanged (lines 55-62 of `Analysis.py`). -/
def loadStep (config : Config) : Except Unit Config → Config
  | .ok this_config => dictUpdate config this_config
  | .error _ => config

/-- `Analysis.__init__`: presence checks (job file first, then the two
fixed paths), then the merge loop over `[system, user, job]`. -/
def init (sys user job : SourceFile) : Except Err AnalysisState :=
  if job.present = false then
    .error (.configurationNotFoundError "analysis_config")
  else if sys.present = false then
    .error (.configurationNotFoundError "configs/system_config.yml")
  else if user.present = false then
    .error (.configurationNotFoundError "configs/user_config.yml")
  else
    .ok { config := [sys.parsed, user.parsed, job.parsed].foldl loadStep ([] : Config),
          dataset := none }

/-- The guard expression `self.config[k1] == None or ... or self.config[kn] == None`:
lookups happen left to right and stop at the first `None` value (Python
`or` short-circuits); an absent key raises `KeyError` at its lookup. -/
def anyNull (c : Config) : List String → Except Err Bool
  | [] => .ok false
  | k :: ks =>
    match clookup c k with
    | none => .error (.keyError k)
    | some v => if v = .vnull then .ok true else anyNull c ks

def loadKeys : List String := ["api_base_path", "endpoint", "owner", "resource"]

/-- The outcome of `requests.get(url)` followed by `pd.read_json`:
either the GET raised, or a response arrived with some status code and
a body that does or does not parse into a dataframe. -/
inductive FetchOutcome where
  | netFail
  | response (status : Nat) (body : Option Dataset)
deriving DecidableEq

/-- `Analysis.load_data`: guard the four keys, then fetch; the whole
`get`/`read_json`/assignment block is wrapped in one `try`, re-raised
as a single "failed to load dataset" exception; `self.dataset` is
assigned only after the parse succeeded. -/
def load_data (s : AnalysisState) (fetch : FetchOutcome) :
    AnalysisState × Except Err Unit :=
  match anyNull s.config loadKeys with
  | .error e => (s, .error e)
  | .ok true => (s, .error .missingConfigurationError)
  | .ok false =>
    match fetch with
    | .netFail => (s, .error (.dataLoadError .network))
    | .response _ body =>
      match body with
      | none => (s, .error (.dataLoadError .parse))
      | some dataframe => ({ s with dataset := some dataframe }, .ok ())

/-- `pandas` column mean: sum over count; `NaN` on an empty column is
modelled as `none`. -/
def meanQ (xs : List ℚ) : Option ℚ :=
  if xs.length = 0 then none else some (xs.sum / (xs.length : ℚ))

/-- The `Series` returned by `compute_analysis`: exactly the three
column means. -/
structure AnalysisResult where
  forks_count_mean : Option ℚ
  open_issues_count_mean : Option ℚ
  watchers_count_mean : Option ℚ
deriving DecidableEq, Repr

/-- `Analysis.compute_analysis`: require the dataset attribute, then
return the means of the three columns; nothing on the object is
written. -/
def compute_analysis (s : AnalysisState) :
    AnalysisState × Except Err AnalysisResult :=
  match s.dataset with
  | none => (s, .error .dataNotLoadedError)
  | some ds =>
    (s, .ok { forks_count_mean := meanQ (ds.map Row.forks_count),
              open_issues_count_mean := meanQ (ds.map Row.open_issues_count),
              watchers_count_mean := meanQ (ds.map Row.watchers_count) })

/-- The rendered figure: the configured attributes it was built from
and the three data series placed on the axes. -/
structure Figure where
  figure_size_x : Value
  figure_size_y : Value
  plot_color : Value
  plot_title : Value
  plot_x_title : Value
  plot_y_title : Value
  x_values : List ℚ
  forks_series : List ℚ
  issues_series : List ℚ
  legend : List String
deriving DecidableEq, Repr

def plotKeys : List String :=
  ["figure_size_x", "figure_size_y", "plot_color",
   "plot_title", "plot_x_title", "plot_y_title"]

/-- `Analysis.plot_data`: dataset check, then the six-key null guard
(`save_path` is not in it), then rendering; `self.config["save_path"]`
is read outside the `try`, so an absent `save_path` raises `KeyError`
after rendering; the `savefig` call is inside the `try`, so a write
failure — including `savefig(None)` when the resolved location is
null — is caught and the figure is returned anyway.  `saveOk` is the
filesystem's verdict on the write; the third component is the location
actually written, `none` when nothing was. -/
def plot_data (s : AnalysisState) (save_path : Option String) (saveOk : Bool) :
    AnalysisState × Except Err Figure × Option Value :=
  match s.dataset with
  | none => (s, .error .dataNotLoadedError, none)
  | some ds =>
    match anyNull s.config plotKeys with
    | .error e => (s, .error e, none)
    | .ok true => (s, .error .missingConfigurationError, none)
    | .ok false =>
      let fig : Figure :=
        { figure_size_x := cget s.config "figure_size_x",
          figure_size_y := cget s.config "figure_size_y",
          plot_color := cget s.config "plot_color",
          plot_title := cget s.config "plot_title",
          plot_x_title := cget s.config "plot_x_title",
          plot_y_title := cget s.config "plot_y_title",
          x_values := ds.map Row.watchers_count,
          forks_series := ds.map Row.forks_count,
          issues_series := ds.map Row.open_issues_count,
          legend := ["Forks", "Open Issues"] }
      match clookup s.config "save_path" with
      | none => (s, .error (.keyError "save_path"), none)
      | some default_save_location =>
        let save_location : Value :=
          match save_path with
          | none => default_save_location
          | some p => .vstr p
        if saveOk = true ∧ save_location ≠ .vnull then
          (s, .ok fig, some save_location)
        else
          (s, .ok fig, none)

/-- `Analysis.notify_done`: null guard on `ntfy_topic`, then a single
POST inside a `try`; both a transport failure and the `TypeError` from
concatenating a non-string topic land in the same `except` and are
only logged.  The third component is the delivered `(url, body)` pair,
`none` when nothing went out. -/
def notify_done (s : AnalysisState) (message : String) (postOk : Bool) :
    AnalysisState × Except Err Unit × Option (String × String) :=
  match anyNull s.config ["ntfy_topic"] with
  | .error e => (s, .error e, none)
  | .ok true => (s, .error .missingConfigurationError, none)
  | .ok false =>
    match cget s.config "ntfy_topic" with
    | .vstr topic =>
      if postOk then (s, .ok (), some ("https://ntfy.sh/" ++ topic, message))
      else (s, .ok (), none)
    | _ => (s, .ok (), none)

/-! ### Basic lemmas about the configuration model -/

theorem orElse_none {α : Type} (x : Option α) : (x.orElse fun _ => none) = x := by
  cases x <;> rfl

theorem clookup_append (c₁ c₂ : Config) (k : String) :
    clookup (c₁ ++ c₂) k = ((clookup c₁ k).orElse fun _ => clookup c₂ k) := by
  induction c₁ with
  | nil => rfl
  | cons p rest ih =>
    obtain ⟨k', v⟩ := p
    by_cases h : k' = k <;> simp [clookup, h, ih]

theorem clookup_dictUpdate (base overlay : Config) (k : String) :
    clookup (dictUpdate base overlay) k
      = ((clookup overlay k).orElse fun _ => clookup base k) := by
  simp [dictUpdate, clookup_append]

theorem anyNull_error_keyError (c : Config) (ks : List String) (e : Err)
    (h : anyNull c ks = .error e) :
    ∃ k ∈ ks, e = .keyError k ∧ clookup c k = none := by
  induction ks with
  | nil => simp [anyNull] at h
  | cons k ks ih =>
    rw [anyNull] at h
    cases hc : clookup c k with
    | none =>
      rw [hc] at h
      exact ⟨k, by simp, by simpa using h.symm, hc⟩
    | some v =>
      rw [hc] at h
      by_cases hv : v = .vnull
      · simp [hv] at h
      · simp [hv] at h
        obtain ⟨k', hk', he, hl⟩ := ih h
        exact ⟨k', by simp [hk'], he, hl⟩

/-! ### Concrete example data -/

def exSysConfig : Config :=
  [("api_base_path", .vstr "https://api.github.com"),
   ("save_path", .vstr "output_figures/engagement_scatter_plots.png"),
   ("ntfy_topic", .vstr "test-topic"),
   ("plot_color", .vstr "green")]

def exUserConfig : Config :=
  [("owner", .vstr "acme"),
   ("plot_color", .vstr "red")]

def exJobConfig : Config :=
  [("endpoint", .vstr "orgs"),
   ("resource", .vstr "repos"),
   ("plot_color", .vstr "blue"),
   ("figure_size_x", .vint 8),
   ("figure_size_y", .vint 6),
   ("plot_title", .vstr "Engagement"),
   ("plot_x_title", .vstr "Watchers"),
   ("plot_y_title", .vstr "Count")]

def exSys : SourceFile := { present := true, parsed := .ok exSysConfig }
def exUser : SourceFile := { present := true, parsed := .ok exUserConfig }
def exJob : SourceFile := { present := true, parsed := .ok exJobConfig }

/-- A job file that exists but whose contents `yaml.safe_load` cannot parse. -/
def brokenJobFile : SourceFile := { present := true, parsed := .error () }

/-- The merged end-to-end configuration of the spec's example scenario. -/
def exConfig : Config :=
  [("api_base_path", .vstr "https://api.example.com"),
   ("endpoint", .vstr "orgs"),
   ("owner", .vstr "acme"),
   ("resource", .vstr "repos"),
   ("figure_size_x", .vint 8),
   ("figure_size_y", .vint 6),
   ("plot_color", .vstr "blue"),
   ("plot_title", .vstr "Engagement"),
   ("plot_x_title", .vstr "Watchers"),
   ("plot_y_title", .vstr "Count"),
   ("save_path", .vstr "out.png"),
   ("ntfy_topic", .vstr "test-topic")]

def exDataset : Dataset := [⟨2, 1, 10⟩, ⟨4, 3, 20⟩]

def exEmptyState : AnalysisState := { config := exConfig, dataset := none }

def exLoaded : AnalysisState := { config := exConfig, dataset := some exDataset }

/-! ### The claims -/

/-- C1: with all three configuration files present and parseable,
construction succeeds and the merged configuration contains every key
of every source, with job values overriding user values overriding
system values on collision. -/
theorem init_merges_with_precedence
    (sys user job : SourceFile) (cs cu cj : Config)
    (hsp : sys.present = true) (hup : user.present = true) (hjp : job.present = true)
    (hs : sys.parsed = .ok cs) (hu : user.parsed = .ok cu) (hj : job.parsed = .ok cj) :
    ∃ st, init sys user job = .ok st ∧ st.dataset = none ∧
      ∀ k : String,
        ((clookup cs k).isSome ∨ (clookup cu k).isSome ∨ (clookup cj k).isSome →
          (clookup st.config k).isSome) ∧
        (∀ v, clookup cj k = some v → clookup st.config k = some v) ∧
        (clookup cj k = none → ∀ v, clookup cu k = some v →
          clookup st.config k = some v) ∧
        (clookup cj k = none → clookup cu k = none → ∀ v, clookup cs k = some v →
          clookup st.config k = some v) := by
  refine ⟨{ config := dictUpdate (dictUpdate (dictUpdate [] cs) cu) cj,
            dataset := none }, ?_, rfl, ?_⟩
  · simp [init, hsp, hup, hjp, hs, hu, hj, List.foldl, loadStep]
  · intro k
    have hmain : clookup (dictUpdate (dictUpdate (dictUpdate [] cs) cu) cj) k
        = ((clookup cj k).orElse fun _ =>
            (clookup cu k).orElse fun _ => clookup cs k) := by
      simp only [clookup_dictUpdate]
      cases clookup cj k <;> cases clookup cu k <;> cases clookup cs k <;>
        simp [Option.orElse, clookup]
    refine ⟨?_, ?_, ?_, ?_⟩
    · intro h
      rcases h with h | h | h <;>
        · cases hj' : clookup cj k <;> cases hu' : clookup cu k <;>
            cases hs' : clookup cs k <;>
            simp_all [hmain, Option.orElse]
    · intro v hv
      simp [hmain, hv, Option.orElse]
    · intro hn v hv
      simp [hmain, hn, hv, Option.orElse]
    · intro hn hn' v hv
      simp [hmain, hn, hn', hv, Option.orElse]

/-- C1 witness: the theorem applied to the concrete example files. -/
theorem init_merges_with_precedence_witness :
    ∃ st, init exSys exUser exJob = .ok st ∧ st.dataset = none ∧
      ∀ k : String,
        ((clookup exSysConfig k).isSome ∨ (clookup exUserConfig k).isSome ∨
            (clookup exJobConfig k).isSome →
          (clookup st.config k).isSome) ∧
        (∀ v, clookup exJobConfig k = some v → clookup st.config k = some v) ∧
        (clookup exJobConfig k = none → ∀ v, clookup exUserConfig k = some v →
          clookup st.config k = some v) ∧
        (clookup exJobConfig k = none → clookup exUserConfig k = none →
          ∀ v, clookup exSysConfig k = some v → clookup st.config k = some v) :=
  init_merges_with_precedence exSys exUser exJob exSysConfig exUserConfig exJobConfig
    rfl rfl rfl rfl rfl rfl

/-- C2 (the code violates the claim): with the job file present but
unparseable, the constructor does not fail — the parse error is logged
and swallowed, and a usable job is produced whose merged configuration
is just the system and user layers, the broken file's keys silently
dropped. -/
theorem init_swallows_parse_failure :
    init exSys exUser brokenJobFile
      = .ok { config := dictUpdate (dictUpdate [] exSysConfig) exUserConfig,
              dataset := none } := rfl

/-- C3: once the guard has passed, a network failure or a body that
does not parse makes `load_data` fail with `dataLoadError` carrying
the underlying cause, and the object's dataset attribute is exactly
what it was before the call — no partial dataset is stored. -/
theorem load_data_failure (s : AnalysisState) (fetch : FetchOutcome)
    (hguard : anyNull s.config loadKeys = .ok false)
    (hfail : fetch = .netFail ∨ ∃ status, fetch = .response status none) :
    ∃ c : LoadFailure,
      load_data s fetch = (s, .error (.dataLoadError c)) ∧
      (fetch = .netFail → c = .network) ∧
      (∀ status, fetch = .response status none → c = .parse) ∧
      (load_data s fetch).1.dataset = s.dataset := by
  rcases hfail with h | ⟨status, h⟩
  · subst h
    exact ⟨.network, by simp [load_data, hguard], fun _ => rfl, by simp, by
      simp [load_data, hguard]⟩
  · subst h
    exact ⟨.parse, by simp [load_data, hguard], by simp, fun _ _ => rfl, by
      simp [load_data, hguard]⟩

/-- C3 witness: the theorem applied to the example configuration and a
failing network call. -/
theorem load_data_failure_witness :
    ∃ c : LoadFailure,
      load_data exEmptyState .netFail = (exEmptyState, .error (.dataLoadError c)) ∧
      (FetchOutcome.netFail = .netFail → c = .network) ∧
      (∀ status, FetchOutcome.netFail = .response status none → c = .parse) ∧
      (load_data exEmptyState .netFail).1.dataset = exEmptyState.dataset :=
  load_data_failure exEmptyState .netFail rfl (Or.inl rfl)

/-- C4: with no dataset attribute on the object, `compute_analysis`
and `plot_data` both fail with `dataNotLoadedError` at their first
check, whatever the other arguments are. -/
theorem not_loaded_guard (s : AnalysisState) (h : s.dataset = none)
    (a : Option String) (so : Bool) :
    (compute_analysis s).2 = .error .dataNotLoadedError ∧
    (plot_data s a so).2.1 = .error .dataNotLoadedError := by
  constructor <;> simp [compute_analysis, plot_data, h]

/-- C4 witness: the theorem applied to a freshly constructed state. -/
theorem not_loaded_guard_witness :
    (compute_analysis exEmptyState).2 = .error .dataNotLoadedError ∧
    (plot_data exEmptyState none true).2.1 = .error .dataNotLoadedError :=
  not_loaded_guard exEmptyState rfl none true

/-- C5: once a dataset is present, `compute_analysis` returns exactly
the three column means, and calling it again on the state it returns
gives the identical result. -/
theorem compute_analysis_means (s : AnalysisState) (ds : Dataset)
    (h : s.dataset = some ds) :
    (compute_analysis s).2 =
      .ok { forks_count_mean := meanQ (ds.map Row.forks_count),
            open_issues_count_mean := meanQ (ds.map Row.open_issues_count),
            watchers_count_mean := meanQ (ds.map Row.watchers_count) } ∧
    compute_analysis (compute_analysis s).1 = compute_analysis s := by
  constructor <;> simp [compute_analysis, h]

/-- C5 witness: on the spec's example dataset the means are 3, 2 and
15, and the computation is repeatable. -/
theorem compute_analysis_means_witness :
    (compute_analysis exLoaded).2 =
      .ok { forks_count_mean := some 3, open_issues_count_mean := some 2,
            watchers_count_mean := some 15 } ∧
    compute_analysis (compute_analysis exLoaded).1 = compute_analysis exLoaded := by
  refine ⟨(compute_analysis_means exLoaded exDataset rfl).1.trans ?_,
    (compute_analysis_means exLoaded exDataset rfl).2⟩
  norm_num [exDataset, meanQ]

/-- A configuration with `api_base_path` absent altogether. -/
def noApiState : AnalysisState :=
  { config := [("endpoint", .vstr "orgs"), ("owner", .vstr "acme"),
               ("resource", .vstr "repos")],
    dataset := none }

/-- C6 counterexample: with `api_base_path` absent (not null) the
failure is the dictionary lookup's `keyError`, not
`missingConfigurationError`. -/
theorem load_data_absent_key_counterexample :
    (load_data noApiState .netFail).2 = .error (.keyError "api_base_path") := rfl

/-- C6 (amended): a required key that is null at the point of use makes
the stage fail with `missingConfigurationError`; a key that is absent
makes it fail with the lookup's `keyError` instead; in both cases
`load_data` fails before any network call — its outcome does not
depend on the fetch at all. -/
theorem missing_config_guards (s : AnalysisState) (fetch fetch' : FetchOutcome)
    (m : String) (po : Bool) :
    (anyNull s.config loadKeys = .ok true →
      (load_data s fetch).2 = .error .missingConfigurationError) ∧
    (∀ e, anyNull s.config loadKeys = .error e →
      (load_data s fetch).2 = .error e ∧ ∃ k ∈ loadKeys, e = .keyError k) ∧
    (anyNull s.config loadKeys ≠ .ok false → load_data s fetch = load_data s fetch') ∧
    (anyNull s.config ["ntfy_topic"] = .ok true →
      (notify_done s m po).2.1 = .error .missingConfigurationError) ∧
    (∀ e, anyNull s.config ["ntfy_topic"] = .error e →
      (notify_done s m po).2.1 = .error e ∧ e = .keyError "ntfy_topic") := by
  refine ⟨?_, ?_, ?_, ?_, ?_⟩
  · intro h
    simp [load_data, h]
  · intro e h
    refine ⟨by simp [load_data, h], ?_⟩
    obtain ⟨k, hk, he, _⟩ := anyNull_error_keyError _ _ _ h
    exact ⟨k, hk, he⟩
  · intro h
    cases hg : anyNull s.config loadKeys with
    | error e => simp [load_data, hg]
    | ok b =>
      cases b with
      | true => simp [load_data, hg]
      | false => exact absurd hg h
  · intro h
    simp [notify_done, h]
  · intro e h
    refine ⟨by simp [notify_done, h], ?_⟩
    obtain ⟨k, hk, he, _⟩ := anyNull_error_keyError _ _ _ h
    simp at hk
    simpa [hk] using he

/-- A configuration in which `api_base_path` is present but null. -/
def nullApiState : AnalysisState :=
  { config := [("api_base_path", .vnull), ("endpoint", .vstr "orgs"),
               ("owner", .vstr "acme"), ("resource", .vstr "repos")],
    dataset := none }

/-- A configuration in which `ntfy_topic` is present but null. -/
def nullTopicState : AnalysisState :=
  { config := [("ntfy_topic", .vnull)], dataset := none }

/-- C6 witness: the amended theorem applied to configurations with a
null `api_base_path` and a null `ntfy_topic`. -/
theorem missing_config_guards_witness :
    (load_data nullApiState .netFail).2 = .error .missingConfigurationError ∧
    (notify_done nullTopicState "done" true).2.1 = .error .missingConfigurationError :=
  ⟨(missing_config_guards nullApiState .netFail .netFail "done" true).1 rfl,
   (missing_config_guards nullTopicState .netFail .netFail "done" true).2.2.2.1 rfl⟩

/-- A loaded job whose configuration has the six guarded plot keys
non-null but `save_path` null. -/
def nullSavePathState : AnalysisState :=
  { config := [("figure_size_x", .vint 8), ("figure_size_y", .vint 6),
               ("plot_color", .vstr "blue"), ("plot_title", .vstr "Engagement"),
               ("plot_x_title", .vstr "Watchers"), ("plot_y_title", .vstr "Count"),
               ("save_path", .vnull)],
    dataset := some exDataset }

/-- C7 counterexample: with `save_path` null and the six guarded keys
set, `plot_data` does not fail at all — it renders, the save of the
null location fails inside the `try` and is swallowed, and the figure
is returned with nothing written. -/
theorem plot_data_null_save_path_counterexample :
    (plot_data nullSavePathState none true).2.1 =
      .ok { figure_size_x := .vint 8, figure_size_y := .vint 6,
            plot_color := .vstr "blue", plot_title := .vstr "Engagement",
            plot_x_title := .vstr "Watchers", plot_y_title := .vstr "Count",
            x_values := [10, 20], forks_series := [2, 4], issues_series := [1, 3],
            legend := ["Forks", "Open Issues"] } ∧
    (plot_data nullSavePathState none true).2.2 = none :=
  ⟨rfl, rfl⟩

/-- C7 (amended): with a dataset present, `plot_data` fails with
`missingConfigurationError` before rendering when any of the six
guarded keys (`figure_size_x`, `figure_size_y`, `plot_color`,
`plot_title`, `plot_x_title`, `plot_y_title`) is null; `save_path` is
not guarded: when it is null and no explicit path is given, the save
silently fails and the figure is still returned. -/
theorem plot_data_null_guard (s : AnalysisState) (ds : Dataset) (a : Option String)
    (so : Bool) (h : s.dataset = some ds) :
    (anyNull s.config plotKeys = .ok true →
      (plot_data s a so).2.1 = .error .missingConfigurationError) ∧
    (anyNull s.config plotKeys = .ok false →
      clookup s.config "save_path" = some .vnull → a = none →
      ∃ fig, (plot_data s a so).2.1 = .ok fig ∧ (plot_data s a so).2.2 = none) := by
  constructor
  · intro hg
    simp [plot_data, h, hg]
  · intro hg hs ha
    subst ha
    simp only [plot_data, h, hg, hs]
    rw [if_neg (by simp)]
    exact ⟨_, rfl, rfl⟩

/-- A loaded job whose configuration has `plot_title` null. -/
def nullPlotTitleState : AnalysisState :=
  { config := [("figure_size_x", .vint 8), ("figure_size_y", .vint 6),
               ("plot_color", .vstr "blue"), ("plot_title", .vnull),
               ("plot_x_title", .vstr "Watchers"), ("plot_y_title", .vstr "Count"),
               ("save_path", .vstr "out.png")],
    dataset := some exDataset }

/-- C7 witness: the amended theorem applied to a null `plot_title`
(guard fires) and to a null `save_path` (no error, figure returned). -/
theorem plot_data_null_guard_witness :
    (plot_data nullPlotTitleState none true).2.1 = .error .missingConfigurationError ∧
    ∃ fig, (plot_data nullSavePathState none true).2.1 = .ok fig ∧
      (plot_data nullSavePathState none true).2.2 = none :=
  ⟨(plot_data_null_guard nullPlotTitleState exDataset none true rfl).1 rfl,
   (plot_data_null_guard nullSavePathState exDataset none true rfl).2 rfl rfl rfl⟩

/-- C8: the save and the notification POST are best-effort — the
figure result of `plot_data` and the result of `notify_done` are the
same whether the write or the POST succeeds or fails, and once the
topic guard passes `notify_done` returns normally. -/
theorem best_effort_save_and_notify (s : AnalysisState) (a : Option String)
    (m : String) :
    (plot_data s a false).2.1 = (plot_data s a true).2.1 ∧
    (notify_done s m false).2.1 = (notify_done s m true).2.1 ∧
    (anyNull s.config ["ntfy_topic"] = .ok false →
      (notify_done s m false).2.1 = .ok ()) := by
  refine ⟨?_, ?_, ?_⟩
  · cases hd : s.dataset with
    | none => simp [plot_data, hd]
    | some ds =>
      cases hg : anyNull s.config plotKeys with
      | error e => simp [plot_data, hd, hg]
      | ok b =>
        cases b with
        | true => simp [plot_data, hd, hg]
        | false =>
          cases hs : clookup s.config "save_path" with
          | none => simp [plot_data, hd, hg, hs]
          | some dflt =>
            simp [plot_data, hd, hg, hs, apply_ite]
  · cases hg : anyNull s.config ["ntfy_topic"] with
    | error e => simp [notify_done, hg]
    | ok b =>
      cases b with
      | true => simp [notify_done, hg]
      | false =>
        simp only [notify_done, hg]
        cases hv : cget s.config "ntfy_topic" <;> simp [hv]
  · intro h
    simp only [notify_done, h]
    cases hv : cget s.config "ntfy_topic" <;> simp [hv]

/-- C8 witness: on the example job a failed POST still returns
normally. -/
theorem best_effort_save_and_notify_witness :
    (notify_done exLoaded "done" false).2.1 = .ok () :=
  (best_effort_save_and_notify exLoaded none "done").2.2 rfl

theorem load_data_config_eq (s : AnalysisState) (f : FetchOutcome) :
    (load_data s f).1.config = s.config := by
  unfold load_data
  repeat' split
  all_goals rfl

theorem compute_analysis_fst (s : AnalysisState) : (compute_analysis s).1 = s := by
  unfold compute_analysis
  split <;> rfl

theorem plot_data_fst (s : AnalysisState) (a : Option String) (so : Bool) :
    (plot_data s a so).1 = s := by
  unfold plot_data
  repeat' split
  all_goals simp [apply_ite]

theorem notify_done_fst (s : AnalysisState) (m : String) (po : Bool) :
    (notify_done s m po).1 = s := by
  unfold notify_done
  repeat' split
  all_goals simp [apply_ite]

/-- C9: no operation changes the configuration mapping — after any
call, the object's `config` is exactly what it was before. -/
theorem config_immutable (s : AnalysisState) (f : FetchOutcome) (a : Option String)
    (so : Bool) (m : String) (po : Bool) :
    (load_data s f).1.config = s.config ∧
    (compute_analysis s).1.config = s.config ∧
    (plot_data s a so).1.config = s.config ∧
    (notify_done s m po).1.config = s.config :=
  ⟨load_data_config_eq s f, by rw [compute_analysis_fst],
   by rw [plot_data_fst], by rw [notify_done_fst]⟩

/-- C10: `load_data` never looks at the HTTP status code — any
response whose body parses is accepted and stored as the dataset,
whatever the status was. -/
theorem load_data_ignores_status (s : AnalysisState) (status : Nat) (ds : Dataset)
    (h : anyNull s.config loadKeys = .ok false) :
    load_data s (.response status (some ds)) = ({ s with dataset := some ds }, .ok ()) := by
  simp [load_data, h]

/-- C10 witness: a 404 response with a parseable JSON body is silently
accepted as the dataset. -/
theorem load_data_ignores_status_witness :
    load_data exEmptyState (.response 404 (some exDataset))
      = ({ exEmptyState with dataset := some exDataset }, .ok ()) :=
  load_data_ignores_status exEmptyState 404 exDataset rfl
